import Mathlib

/-!
Shallow embedding of the hclwrite-example program (src/main.go).

The program emits two HCL documents: a locals document built from a
pseudo-random source, and a resource document built from two environment
variables. We model the hclwrite document tree, the go-cty object values,
the Go maps used to assemble the secrets mapping, and the filesystem side
effects of the two emitters, and prove the claimed properties about them.

Conventions of the embedding:
- Go maps are modelled as association lists with unique keys; an
  assignment m[k] = v replaces the value when k is present and appends
  the pair otherwise, exactly like a Go map write.
- The pseudo-random source rand.Int is modelled as a function from the
  call index (0-based, in call order) to the produced non-negative value;
  on the crnMap assignment line the key draws the even call and the value
  the odd call, matching Go left-to-right evaluation order.
- Filesystem responses (stat results, mkdir and create outcomes) are
  explicit inputs, so that the error-handling paths of makeDir and
  createFile are stated over every possible OS response.
-/

def tfDir : String := "terraform"

def tfLocalsFileName : String := "locals.tf"

def tfMainFileName : String := "main.tf"

/-- A go-cty value as used by the program: string values and object values
(cty.StringVal and cty.ObjectVal over a Go map). -/
inductive CtyValue : Type where
  | str (s : String)
  | obj (fields : List (String × CtyValue))

/-- An hclwrite attribute expression: either a cty value
(SetAttributeValue) or a traversal, i.e. a root name followed by attribute
names (SetAttributeTraversal). -/
inductive HclExpr : Type where
  | val (v : CtyValue)
  | traversal (parts : List String)

/-- One element of an hclwrite body: an attribute or a nested block with a
type, labels and its own body. The top-level document is a list of body
items (the body of the empty hclwrite file). -/
inductive BodyItem : Type where
  | attr (name : String) (e : HclExpr)
  | block (typ : String) (labels : List String) (body : List BodyItem)

/-- A Go map assignment m[k] = v on a map modelled as an association list
with unique keys: replace the value in place when k is already a key,
append the pair otherwise. -/
def mapInsert (m : List (String × CtyValue)) (k : String) (v : CtyValue) :
    List (String × CtyValue) :=
  if m.any (fun p => p.1 == k) then
    m.map (fun p => if p.1 == k then (k, v) else p)
  else
    m ++ [(k, v)]

/-- Go map lookup m[k] on the association-list model. -/
def lookupMap : List (String × CtyValue) → String → Option CtyValue
  | [], _ => none
  | p :: rest, k => if p.1 == k then some p.2 else lookupMap rest k

/-- hclwrite Body.SetAttributeValue / SetAttributeTraversal: replace the
expression of an existing attribute of that name, or append a new
attribute at the end of the body. -/
def setAttribute (body : List BodyItem) (name : String) (e : HclExpr) :
    List BodyItem :=
  if body.any (fun it =>
      match it with
      | .attr n _ => n == name
      | .block .. => false) then
    body.map (fun it =>
      match it with
      | .attr n ex => if n == name then .attr n e else .attr n ex
      | b => b)
  else
    body ++ [.attr name e]

/-- hclwrite Body.AppendNewBlock followed by populating the new block body:
append a block item at the end of the body. -/
def appendNewBlock (body : List BodyItem) (typ : String)
    (labels : List String) (blockBody : List BodyItem) : List BodyItem :=
  body ++ [.block typ labels blockBody]

/-- The text hclwrite renders for a traversal: the parts joined with dots. -/
def renderTraversal (parts : List String) : String :=
  String.intercalate "." parts

/-- The inner loop of createTerraformLocals: five iterations of
crnMap[field-randk] = cty.StringVal(crn:v1:bluemix:randv) on the map m,
starting at random-call index idx. Returns the final map and the next
random-call index. The field-name draw precedes the value draw on each
iteration. -/
def buildCrnMap (rand : Nat → Nat) :
    Nat → Nat → List (String × CtyValue) → List (String × CtyValue) × Nat
  | idx, 0, m => (m, idx)
  | idx, Nat.succ n, m =>
      buildCrnMap rand (idx + 2) n
        (mapInsert m ("field-" ++ toString (rand idx))
          (CtyValue.str ("crn:v1:bluemix:" ++ toString (rand (idx + 1)))))

/-- The outer loop of createTerraformLocals: while indexSecret < 5, build a
fresh crnMap with five random draws of field/value pairs, wrap it as the
single field "fields" of a fresh fieldsMap, and assign the wrapper object
to key secret-indexSecret of the secrets map. idx is the next random-call
index, i the current value of indexSecret, and the fuel argument counts
the remaining iterations. -/
def buildSecretsMapAux (rand : Nat → Nat) :
    Nat → Nat → Nat → List (String × CtyValue) → List (String × CtyValue)
  | _, _, 0, m => m
  | idx, i, Nat.succ n, m =>
      let cr := buildCrnMap rand idx 5 []
      buildSecretsMapAux rand cr.2 (i + 1) n
        (mapInsert m ("secret-" ++ toString i)
          (CtyValue.obj (mapInsert [] "fields" (CtyValue.obj cr.1))))

/-- The secretsMap value computed by createTerraformLocals: the outer loop
run from indexSecret = 0 and random-call index 0 on the empty map, with
five iterations (the loop condition indexSecret < 5 starting at 0). -/
def buildSecretsMap (rand : Nat → Nat) : List (String × CtyValue) :=
  buildSecretsMapAux rand 0 0 5 []

/-- The crnMap built for outer iteration i: the inner loop consumes ten
random calls per outer iteration, so iteration i starts at call index
10 * i. -/
def entryCrnMap (rand : Nat → Nat) (i : Nat) : List (String × CtyValue) :=
  (buildCrnMap rand (10 * i) 5 []).1

/-- The field names drawn by the inner loop starting at call index idx,
with the given number of iterations left. -/
def crnNames (rand : Nat → Nat) : Nat → Nat → List String
  | _, 0 => []
  | idx, Nat.succ n => ("field-" ++ toString (rand idx)) :: crnNames rand (idx + 2) n

/-- The five field names drawn for outer iteration i. -/
def entryFieldNames (rand : Nat → Nat) (i : Nat) : List String :=
  crnNames rand (10 * i) 5

/-- The document tree serialized by createTerraformLocals: one block named
locals appended to the empty file body, whose body receives the single
attribute secrets bound to the secrets map as a cty object value. -/
def createTerraformLocalsDoc (rand : Nat → Nat) : List BodyItem :=
  let localsBody :=
    setAttribute [] "secrets" (HclExpr.val (CtyValue.obj (buildSecretsMap rand)))
  appendNewBlock [] "locals" [] localsBody

/-- os.Getenv: the environment is a partial map from variable names to
values, and an unset variable reads as the empty string. -/
def osGetenv (env : String → Option String) (k : String) : String :=
  (env k).getD ""

/-- The document tree serialized by createTerraformMain, as a function of
the environment. The body operations are applied in source order: the
resource block receives for_each, cluster, secret_name and
secret_namespace, then the nested dynamic "fields" block receives its
for_each traversal and the content block with field_name and crn. -/
def createTerraformMainDoc (env : String → Option String) : List BodyItem :=
  let contentBody :=
    setAttribute
      (setAttribute [] "field_name" (HclExpr.traversal ["fields", "key"]))
      "crn" (HclExpr.traversal ["fields", "value"])
  let dynamicBody :=
    appendNewBlock
      (setAttribute [] "for_each"
        (HclExpr.traversal ["local.secrets[each.key]", "fields"]))
      "content" [] contentBody
  let resourceBody :=
    appendNewBlock
      (setAttribute
        (setAttribute
          (setAttribute
            (setAttribute [] "for_each" (HclExpr.traversal ["local", "secrets"]))
            "cluster" (HclExpr.val (CtyValue.str (osGetenv env "CLUSTER_ID"))))
          "secret_name" (HclExpr.traversal ["each", "key"]))
        "secret_namespace" (HclExpr.val (CtyValue.str (osGetenv env "NAMESPACE"))))
      "dynamic" ["fields"] dynamicBody
  appendNewBlock [] "resource" ["ibm_container_ingress_secret_opaque", "ingress-secret"]
    resourceBody

/-- Attribute lookup in a body, by name. -/
def lookupAttr : List BodyItem → String → Option HclExpr
  | [], _ => none
  | .attr n e :: rest, name => if n == name then some e else lookupAttr rest name
  | .block .. :: rest, name => lookupAttr rest name

/-- The nested blocks of a body, in order. -/
def blocksOf : List BodyItem → List BodyItem
  | [] => []
  | .attr .. :: rest => blocksOf rest
  | .block t l b :: rest => .block t l b :: blocksOf rest

/-- The body of the single resource block of the main document. -/
def mainResourceBody (env : String → Option String) : List BodyItem :=
  match createTerraformMainDoc env with
  | [BodyItem.block _ _ b] => b
  | _ => []

/-- The result of os.Stat in makeDir, abstracted to the three cases the
code distinguishes: success, an error satisfying os.IsNotExist, or any
other error. -/
inductive StatRes : Type where
  | ok
  | notExist
  | otherErr
deriving DecidableEq

/-- The outcome of an OS call such as os.Mkdir: success or an error. -/
inductive OpOutcome : Type where
  | success
  | failure
deriving DecidableEq

/-- What a run of makeDir did: whether it panicked, and whether it invoked
os.Mkdir. -/
structure MakeDirResult : Type where
  panicked : Bool
  mkdirAttempted : Bool
deriving DecidableEq

/-- makeDir from src/main.go, as a function of the OS responses. When the
stat error satisfies os.IsNotExist, the code calls os.Mkdir and discards
its return value, so the result does not depend on the mkdir outcome
(the _mkdirRes argument); when the stat returns any other error the code
panics; when the stat succeeds the code does nothing. -/
def makeDir (stat : StatRes) (_mkdirRes : OpOutcome) : MakeDirResult :=
  match stat with
  | .notExist => ⟨false, true⟩
  | .ok => ⟨false, false⟩
  | .otherErr => ⟨true, false⟩

/-- The stat result a well-behaved filesystem gives makeDir, as a function
of whether the directory exists. -/
def statOf (dirExists : Bool) : StatRes :=
  if dirExists then .ok else .notExist

/-- One call of makeDir against a well-behaved filesystem whose state is
whether the directory exists: returns the new state and what the call
did. On such a filesystem the stat reflects existence and mkdir succeeds,
creating the directory. -/
def makeDirFS (dirExists : Bool) : Bool × MakeDirResult :=
  match statOf dirExists with
  | .ok => (dirExists, makeDir .ok .success)
  | .notExist => (true, makeDir .notExist .success)
  | .otherErr => (dirExists, makeDir .otherErr .success)

/-- A handle returned by os.Create: an open file handle on a path, usable
for writing. -/
structure FileHandle : Type where
  path : String
deriving DecidableEq

/-- What a run of createFile produced: a panic, or the returned handle. -/
inductive CreateOutcome : Type where
  | panicked
  | returned (h : FileHandle)
deriving DecidableEq

/-- createFile from src/main.go, as a function of the behaviour of
os.Create: it calls os.Create on tfDir ++ "/" ++ fileName, panics on any
error (modelled as none) and otherwise returns the handle unchanged. -/
def createFile (osCreate : String → Option FileHandle) (fileName : String) :
    CreateOutcome :=
  match osCreate (tfDir ++ "/" ++ fileName) with
  | none => .panicked
  | some h => .returned h

/-- The filesystem file contents: a partial map from paths to contents. -/
abbrev FileSys := String → Option String

/-- os.Create on the content model: truncate-or-create leaves the file
present with empty content. -/
def fsCreate (fs : FileSys) (path : String) : FileSys :=
  fun p => if p == path then some "" else fs p

/-- File.Write directly after opening: append the written bytes to the
current content (empty right after a create). -/
def fsWrite (fs : FileSys) (path s : String) : FileSys :=
  fun p => if p == path then some ((fs path).getD "" ++ s) else fs p

/-- The effect of a successful createTerraformLocals run on file contents:
create (truncating) terraform/locals.tf, then write the serialized locals
document, for any serializer render. -/
def runCreateTerraformLocals (fs : FileSys) (render : List BodyItem → String)
    (rand : Nat → Nat) : FileSys :=
  let path := tfDir ++ "/" ++ tfLocalsFileName
  fsWrite (fsCreate fs path) path (render (createTerraformLocalsDoc rand))

/-- The effect of a successful createTerraformMain run on file contents:
create (truncating) terraform/main.tf, then write the serialized main
document. -/
def runCreateTerraformMain (fs : FileSys) (render : List BodyItem → String)
    (env : String → Option String) : FileSys :=
  let path := tfDir ++ "/" ++ tfMainFileName
  fsWrite (fsCreate fs path) path (render (createTerraformMainDoc env))

/-- The effect of a successful run of main on file contents:
createTerraformLocals then createTerraformMain. -/
def runMain (fs : FileSys) (render : List BodyItem → String)
    (rand : Nat → Nat) (env : String → Option String) : FileSys :=
  runCreateTerraformMain (runCreateTerraformLocals fs render rand) render env

/-- The filesystem calls a run can make, as trace events. -/
inductive FsEvent : Type where
  | statDir (path : String)
  | mkdirDir (path : String)
  | createFileEv (path : String)
  | writeFileEv (path : String) (content : String)
  | closeFileEv (path : String)
deriving DecidableEq

/-- The trace of makeDir on a well-behaved filesystem: a stat, followed by
a mkdir exactly when the directory did not exist. -/
def makeDirEvents (dirExists : Bool) (path : String) : List FsEvent :=
  FsEvent.statDir path :: (if dirExists then [] else [FsEvent.mkdirDir path])

/-- The trace of a successful createTerraformLocals run: ensure the
directory, create the file, write the serialized document. No close is
ever issued. -/
def createTerraformLocalsEvents (dirExists : Bool)
    (render : List BodyItem → String) (rand : Nat → Nat) : List FsEvent :=
  makeDirEvents dirExists tfDir ++
    [FsEvent.createFileEv (tfDir ++ "/" ++ tfLocalsFileName),
     FsEvent.writeFileEv (tfDir ++ "/" ++ tfLocalsFileName)
       (render (createTerraformLocalsDoc rand))]

/-- The trace of a successful createTerraformMain run. -/
def createTerraformMainEvents (dirExists : Bool)
    (render : List BodyItem → String) (env : String → Option String) :
    List FsEvent :=
  makeDirEvents dirExists tfDir ++
    [FsEvent.createFileEv (tfDir ++ "/" ++ tfMainFileName),
     FsEvent.writeFileEv (tfDir ++ "/" ++ tfMainFileName)
       (render (createTerraformMainDoc env))]

/-- The trace of a successful run of main: after the first emitter the
directory exists, so the second makeDir only stats. -/
def mainEvents (dirExists : Bool) (render : List BodyItem → String)
    (rand : Nat → Nat) (env : String → Option String) : List FsEvent :=
  createTerraformLocalsEvents dirExists render rand ++
    createTerraformMainEvents true render env

theorem mapInsert_length_le (m : List (String × CtyValue)) (k : String)
    (v : CtyValue) : (mapInsert m k v).length ≤ m.length + 1 := by
  unfold mapInsert
  split
  · simp only [List.length_map]
    omega
  · simp

theorem mapInsert_length_ge (m : List (String × CtyValue)) (k : String)
    (v : CtyValue) : m.length ≤ (mapInsert m k v).length := by
  unfold mapInsert
  split
  · simp only [List.length_map]
    exact Nat.le_refl _
  · simp

theorem mapInsert_length_pos (m : List (String × CtyValue)) (k : String)
    (v : CtyValue) : 1 ≤ (mapInsert m k v).length := by
  unfold mapInsert
  split
  next h =>
    rw [List.any_eq_true] at h
    obtain ⟨p, hp, _⟩ := h
    have hm : 0 < m.length := List.length_pos.mpr (List.ne_nil_of_mem hp)
    simp only [List.length_map]
    omega
  next _ =>
    simp

theorem mapInsert_keys_of_not_mem (m : List (String × CtyValue)) (k : String)
    (v : CtyValue) (h : k ∉ m.map Prod.fst) : mapInsert m k v = m ++ [(k, v)] := by
  unfold mapInsert
  rw [if_neg]
  intro hany
  rw [List.any_eq_true] at hany
  obtain ⟨p, hp, hpk⟩ := hany
  exact h (by
    rw [List.mem_map]
    exact ⟨p, hp, by simpa using hpk⟩)

theorem buildCrnMap_fst_length_le (rand : Nat → Nat) (fuel : Nat) :
    ∀ (idx : Nat) (m : List (String × CtyValue)),
      ((buildCrnMap rand idx fuel m).1).length ≤ m.length + fuel := by
  induction fuel with
  | zero => intro idx m; simp [buildCrnMap]
  | succ n ih =>
      intro idx m
      have h1 := mapInsert_length_le m ("field-" ++ toString (rand idx))
        (CtyValue.str ("crn:v1:bluemix:" ++ toString (rand (idx + 1))))
      have h2 := ih (idx + 2) (mapInsert m ("field-" ++ toString (rand idx))
        (CtyValue.str ("crn:v1:bluemix:" ++ toString (rand (idx + 1)))))
      simp only [buildCrnMap]
      omega

theorem buildCrnMap_fst_length_ge (rand : Nat → Nat) (fuel : Nat) :
    ∀ (idx : Nat) (m : List (String × CtyValue)),
      m.length ≤ ((buildCrnMap rand idx fuel m).1).length := by
  induction fuel with
  | zero => intro idx m; simp [buildCrnMap]
  | succ n ih =>
      intro idx m
      have h1 := mapInsert_length_ge m ("field-" ++ toString (rand idx))
        (CtyValue.str ("crn:v1:bluemix:" ++ toString (rand (idx + 1))))
      have h2 := ih (idx + 2) (mapInsert m ("field-" ++ toString (rand idx))
        (CtyValue.str ("crn:v1:bluemix:" ++ toString (rand (idx + 1)))))
      simp only [buildCrnMap]
      omega

theorem buildCrnMap_fst_length_pos (rand : Nat → Nat) (fuel : Nat)
    (hf : 0 < fuel) :
    ∀ (idx : Nat) (m : List (String × CtyValue)),
      1 ≤ ((buildCrnMap rand idx fuel m).1).length := by
  cases fuel with
  | zero => exact absurd hf (by omega)
  | succ n =>
      intro idx m
      have h1 := mapInsert_length_pos m ("field-" ++ toString (rand idx))
        (CtyValue.str ("crn:v1:bluemix:" ++ toString (rand (idx + 1))))
      have h2 := buildCrnMap_fst_length_ge rand n (idx + 2)
        (mapInsert m ("field-" ++ toString (rand idx))
          (CtyValue.str ("crn:v1:bluemix:" ++ toString (rand (idx + 1)))))
      simp only [buildCrnMap]
      omega

theorem buildCrnMap_fst_length_of_nodup (rand : Nat → Nat) (fuel : Nat) :
    ∀ (idx : Nat) (m : List (String × CtyValue)),
      (crnNames rand idx fuel).Nodup →
      (∀ nm ∈ crnNames rand idx fuel, nm ∉ m.map Prod.fst) →
      ((buildCrnMap rand idx fuel m).1).length = m.length + fuel := by
  induction fuel with
  | zero => intro idx m _ _; simp [buildCrnMap]
  | succ n ih =>
      intro idx m hnd hnotin
      simp only [crnNames, List.nodup_cons] at hnd
      obtain ⟨hknotin, hndtail⟩ := hnd
      have hkm : ("field-" ++ toString (rand idx)) ∉ m.map Prod.fst :=
        hnotin _ (by simp [crnNames])
      have heq := mapInsert_keys_of_not_mem m ("field-" ++ toString (rand idx))
        (CtyValue.str ("crn:v1:bluemix:" ++ toString (rand (idx + 1)))) hkm
      have htail : ∀ nm ∈ crnNames rand (idx + 2) n,
          nm ∉ (m ++ [("field-" ++ toString (rand idx),
            CtyValue.str ("crn:v1:bluemix:" ++ toString (rand (idx + 1))))]).map
              Prod.fst := by
        intro nm hnm
        rw [List.map_append, List.mem_append]
        push_neg
        refine ⟨hnotin nm (by simp [crnNames, hnm]), ?_⟩
        simp only [List.map_cons, List.map_nil, List.mem_singleton]
        intro hcon
        exact hknotin (hcon ▸ hnm)
      have hrec := ih (idx + 2)
        (m ++ [("field-" ++ toString (rand idx),
          CtyValue.str ("crn:v1:bluemix:" ++ toString (rand (idx + 1))))])
        hndtail htail
      simp only [buildCrnMap]
      rw [heq, hrec]
      simp only [List.length_append, List.length_cons, List.length_nil]
      omega

/-- C1 counterexample: with the random source constantly 0, every inner
iteration of an entry draws the same field name, so the fields map of
secret-0 collapses to a single pair, refuting the claim that every
Fields Map has exactly 5 field pairs regardless of the random values. -/
theorem secrets_fields_count_counterexample :
    lookupMap (buildSecretsMap (fun _ => 0)) "secret-0" =
      some (CtyValue.obj [("fields",
        CtyValue.obj [("field-0", CtyValue.str "crn:v1:bluemix:0")])]) ∧
    ([("field-0", CtyValue.str "crn:v1:bluemix:0")] :
      List (String × CtyValue)).length ≠ 5 :=
  ⟨rfl, by decide⟩

/-- C1 (amended): for every random source the Secrets Mapping has exactly
5 entries; each entry holds a fields map whose pair count is between 1
and 5, and is exactly 5 whenever the five field names drawn for that
entry are pairwise distinct (a colliding draw overwrites an earlier pair,
as flagged in the design notes of the spec). -/
theorem secrets_mapping_cardinality_amended (rand : Nat → Nat) :
    (buildSecretsMap rand).length = 5 ∧
    ∀ i : Nat, i < 5 →
      lookupMap (buildSecretsMap rand) ("secret-" ++ toString i) =
        some (CtyValue.obj [("fields", CtyValue.obj (entryCrnMap rand i))]) ∧
      1 ≤ (entryCrnMap rand i).length ∧
      (entryCrnMap rand i).length ≤ 5 ∧
      ((entryFieldNames rand i).Nodup → (entryCrnMap rand i).length = 5) := by
  refine ⟨rfl, ?_⟩
  intro i hi
  refine ⟨?_, buildCrnMap_fst_length_pos rand 5 (by omega) (10 * i) [],
    buildCrnMap_fst_length_le rand 5 (10 * i) [],
    fun h => buildCrnMap_fst_length_of_nodup rand 5 (10 * i) [] h (by simp)⟩
  interval_cases i <;> rfl

/-- C1 witness: with the identity random source the outer map has 5
entries and the fields map of secret-0 has exactly 5 pairs, since the
drawn names field-0, field-2, field-4, field-6, field-8 are distinct. -/
theorem secrets_mapping_cardinality_amended_witness :
    (buildSecretsMap (fun n => n)).length = 5 ∧
    (entryCrnMap (fun n => n) 0).length = 5 :=
  ⟨(secrets_mapping_cardinality_amended (fun n => n)).1,
   ((secrets_mapping_cardinality_amended (fun n => n)).2 0 (by omega)).2.2.2
     (by decide)⟩

/-- C2 counterexample: when the stat reports not-exist and the mkdir call
then fails, makeDir returns normally: the creation error is discarded and
the process does not abort, refuting the claim. -/
theorem makeDir_ignores_mkdir_error_counterexample :
    makeDir StatRes.notExist OpOutcome.failure =
      { panicked := false, mkdirAttempted := true } ∧
    ({ panicked := false, mkdirAttempted := true } : MakeDirResult).panicked
      ≠ true :=
  ⟨rfl, by decide⟩

/-- C2 (amended): makeDir panics exactly when the stat error is something
other than not-exist; the outcome of the directory-creation call never
influences the result, i.e. every creation error is silently ignored. -/
theorem makeDir_abort_only_on_stat_error (stat : StatRes) (r₁ r₂ : OpOutcome) :
    ((makeDir stat r₁).panicked = true ↔ stat = StatRes.otherErr) ∧
    makeDir stat r₁ = makeDir stat r₂ := by
  cases stat <;> simp [makeDir]

/-- C2 witness: a stat error other than not-exist does panic. -/
theorem makeDir_abort_only_on_stat_error_witness :
    (makeDir StatRes.otherErr OpOutcome.success).panicked = true :=
  (makeDir_abort_only_on_stat_error StatRes.otherErr OpOutcome.success
    OpOutcome.failure).1.mpr rfl

/-- C3: for every random source, the locals document is exactly one block
named locals whose body is the single attribute secrets, bound to the
nested object with keys secret-0 through secret-4, each mapping to an
object with the single key fields that wraps the pairs drawn for that
entry. -/
theorem locals_document_structure (rand : Nat → Nat) :
    createTerraformLocalsDoc rand =
      [BodyItem.block "locals" []
        [BodyItem.attr "secrets" (HclExpr.val (CtyValue.obj
          [("secret-0", CtyValue.obj [("fields", CtyValue.obj (entryCrnMap rand 0))]),
           ("secret-1", CtyValue.obj [("fields", CtyValue.obj (entryCrnMap rand 1))]),
           ("secret-2", CtyValue.obj [("fields", CtyValue.obj (entryCrnMap rand 2))]),
           ("secret-3", CtyValue.obj [("fields", CtyValue.obj (entryCrnMap rand 3))]),
           ("secret-4", CtyValue.obj [("fields", CtyValue.obj (entryCrnMap rand 4))])]))]] :=
  rfl

/-- C4: for every environment, the main document is one resource block
with a for_each bound to the traversal rendered as local.secrets, a
nested dynamic block of kind fields whose for_each traversal renders as
local.secrets[each.key].fields, and inside it a content block setting
field_name to fields.key and crn to fields.value. -/
theorem main_document_structure (env : String → Option String) :
    createTerraformMainDoc env =
      [BodyItem.block "resource"
        ["ibm_container_ingress_secret_opaque", "ingress-secret"]
        [BodyItem.attr "for_each" (HclExpr.traversal ["local", "secrets"]),
         BodyItem.attr "cluster"
           (HclExpr.val (CtyValue.str (osGetenv env "CLUSTER_ID"))),
         BodyItem.attr "secret_name" (HclExpr.traversal ["each", "key"]),
         BodyItem.attr "secret_namespace"
           (HclExpr.val (CtyValue.str (osGetenv env "NAMESPACE"))),
         BodyItem.block "dynamic" ["fields"]
           [BodyItem.attr "for_each"
              (HclExpr.traversal ["local.secrets[each.key]", "fields"]),
            BodyItem.block "content" []
              [BodyItem.attr "field_name" (HclExpr.traversal ["fields", "key"]),
               BodyItem.attr "crn" (HclExpr.traversal ["fields", "value"])]]]] ∧
    renderTraversal ["local", "secrets"] = "local.secrets" ∧
    renderTraversal ["local.secrets[each.key]", "fields"] =
      "local.secrets[each.key].fields" :=
  ⟨rfl, rfl, rfl⟩

/-- C5: the cluster attribute is the literal CLUSTER_ID value and
secret_namespace the literal NAMESPACE value, consumed verbatim; when a
variable is unset the attribute is still present, with the empty string
as its value. -/
theorem cluster_namespace_env_verbatim (env : String → Option String) :
    lookupAttr (mainResourceBody env) "cluster" =
      some (HclExpr.val (CtyValue.str (osGetenv env "CLUSTER_ID"))) ∧
    lookupAttr (mainResourceBody env) "secret_namespace" =
      some (HclExpr.val (CtyValue.str (osGetenv env "NAMESPACE"))) ∧
    (env "CLUSTER_ID" = none →
      lookupAttr (mainResourceBody env) "cluster" =
        some (HclExpr.val (CtyValue.str ""))) ∧
    (env "NAMESPACE" = none →
      lookupAttr (mainResourceBody env) "secret_namespace" =
        some (HclExpr.val (CtyValue.str ""))) := by
  refine ⟨rfl, rfl, ?_, ?_⟩
  · intro h
    have h1 : lookupAttr (mainResourceBody env) "cluster" =
        some (HclExpr.val (CtyValue.str (osGetenv env "CLUSTER_ID"))) := rfl
    rw [h1]
    simp [osGetenv, h]
  · intro h
    have h1 : lookupAttr (mainResourceBody env) "secret_namespace" =
        some (HclExpr.val (CtyValue.str (osGetenv env "NAMESPACE"))) := rfl
    rw [h1]
    simp [osGetenv, h]

/-- C5 witness: with an entirely unset environment the cluster attribute
is present with the empty string value. -/
theorem cluster_namespace_env_verbatim_witness :
    lookupAttr (mainResourceBody (fun _ => none)) "cluster" =
      some (HclExpr.val (CtyValue.str "")) :=
  (cluster_namespace_env_verbatim (fun _ => none)).2.2.1 rfl

/-- C6: makeDir aborts if and only if the stat returns an error other than
not-exist; when the path does not exist it attempts the creation without
aborting; when the stat succeeds it neither panics nor calls mkdir. -/
theorem makeDir_stat_behavior (stat : StatRes) (r : OpOutcome) :
    ((makeDir stat r).panicked = true ↔ stat = StatRes.otherErr) ∧
    ((makeDir stat r).mkdirAttempted = true ↔ stat = StatRes.notExist) ∧
    (stat = StatRes.ok →
      makeDir stat r = { panicked := false, mkdirAttempted := false }) := by
  cases stat <;> simp [makeDir]

/-- C6 witness: a successful stat leads to no panic and no mkdir. -/
theorem makeDir_stat_behavior_witness :
    makeDir StatRes.ok OpOutcome.success =
      { panicked := false, mkdirAttempted := false } :=
  (makeDir_stat_behavior StatRes.ok OpOutcome.success).2.2 rfl

/-- C7: on a well-behaved filesystem, after one successful makeDir call a
second call on the same path produces no error, attempts no creation and
leaves the directory state unchanged, so two calls compose to one. -/
theorem makeDir_idempotent (dirExists : Bool) :
    (makeDirFS dirExists).2.panicked = false →
      makeDirFS (makeDirFS dirExists).1 =
        ((makeDirFS dirExists).1,
          { panicked := false, mkdirAttempted := false }) := by
  cases dirExists <;> intro _ <;> rfl

/-- C7 witness: starting from a missing directory, the second call is a
no-op on the state created by the first. -/
theorem makeDir_idempotent_witness :
    makeDirFS (makeDirFS false).1 =
      ((makeDirFS false).1, { panicked := false, mkdirAttempted := false }) :=
  makeDir_idempotent false rfl

/-- C8: createFile panics exactly when os.Create errs; on success it
returns the very handle os.Create opened on terraform joined with the
given name; and no run of main ever issues a file close. -/
theorem createFile_abort_and_handle
    (osCreate : String → Option FileHandle) (fileName : String) :
    (osCreate (tfDir ++ "/" ++ fileName) = none →
      createFile osCreate fileName = CreateOutcome.panicked) ∧
    (∀ h : FileHandle, osCreate (tfDir ++ "/" ++ fileName) = some h →
      createFile osCreate fileName = CreateOutcome.returned h) ∧
    (∀ (d : Bool) (render : List BodyItem → String) (rand : Nat → Nat)
        (env : String → Option String) (p : String),
      FsEvent.closeFileEv p ∉ mainEvents d render rand env) := by
  refine ⟨?_, ?_, ?_⟩
  · intro h
    simp [createFile, h]
  · intro hd h
    simp [createFile, h]
  · intro d render rand env p
    cases d <;>
      simp [mainEvents, createTerraformLocalsEvents, createTerraformMainEvents,
        makeDirEvents]

/-- C8 witness: an os.Create error makes createFile panic. -/
theorem createFile_abort_and_handle_witness :
    createFile (fun _ => none) "locals.tf" = CreateOutcome.panicked :=
  (createFile_abort_and_handle (fun _ => none) "locals.tf").1 rfl

/-- C9: whatever the prior file contents, a successful run leaves
terraform/locals.tf and terraform/main.tf holding exactly the newly
serialized documents, for any serializer: creation truncates, so no stale
bytes survive. -/
theorem rerun_overwrites_outputs (fs : FileSys)
    (render : List BodyItem → String) (rand : Nat → Nat)
    (env : String → Option String) :
    runMain fs render rand env "terraform/locals.tf" =
      some (render (createTerraformLocalsDoc rand)) ∧
    runMain fs render rand env "terraform/main.tf" =
      some (render (createTerraformMainDoc env)) :=
  ⟨rfl, rfl⟩

/-- C10: the bytes of terraform/main.tf are a function of the consumed
CLUSTER_ID and NAMESPACE values only: any two runs agreeing on those
agree on the main.tf contents, whatever the random source, the prior
filesystem contents, or the rest of the environment. -/
theorem main_tf_deterministic_in_env
    (fs₁ fs₂ : FileSys) (render : List BodyItem → String)
    (rand₁ rand₂ : Nat → Nat) (env₁ env₂ : String → Option String)
    (hc : osGetenv env₁ "CLUSTER_ID" = osGetenv env₂ "CLUSTER_ID")
    (hn : osGetenv env₁ "NAMESPACE" = osGetenv env₂ "NAMESPACE") :
    runMain fs₁ render rand₁ env₁ "terraform/main.tf" =
      runMain fs₂ render rand₂ env₂ "terraform/main.tf" := by
  have h₁ : runMain fs₁ render rand₁ env₁ "terraform/main.tf" =
      some (render (createTerraformMainDoc env₁)) := rfl
  have h₂ : runMain fs₂ render rand₂ env₂ "terraform/main.tf" =
      some (render (createTerraformMainDoc env₂)) := rfl
  have hdoc : createTerraformMainDoc env₁ = createTerraformMainDoc env₂ := by
    unfold createTerraformMainDoc
    rw [hc, hn]
  rw [h₁, h₂, hdoc]

/-- C10 witness: two runs with different random sources, different prior
contents of the rest of the environment, but equal consumed CLUSTER_ID
and NAMESPACE values produce the same main.tf contents. -/
theorem main_tf_deterministic_in_env_witness :
    runMain (fun _ => none) (fun _ => "") (fun n => n) (fun _ => none)
        "terraform/main.tf" =
      runMain (fun _ => none) (fun _ => "") (fun n => n + 1)
        (fun k => if k == "OTHER" then some "x" else none)
        "terraform/main.tf" :=
  main_tf_deterministic_in_env _ _ _ _ _ _ _ rfl rfl
